import Mathlib

/-!
Verification development for the heuristic scoring and scheduling engine of
the focus-flow repository (python_service/src/ai).  The Python sources are
shallowly embedded: dictionaries with optional fields become structures with
`Option` fields (the `.get` default is applied at each use site, exactly as
in the source), Python numbers are modelled as exact rationals `ℚ`, and code
that can raise an exception returns `Except String _`.
-/

/-- A parsed ISO-8601 timestamp string.  `seconds` is the instant the string
denotes (seconds on a linear time axis) and `hasZ` records whether the string
carries a trailing `Z` UTC marker.  Only valid (parseable) timestamp strings
are modelled; an unparseable string makes `datetime.fromisoformat` raise,
which no claim exercises. -/
structure Timestamp where
  seconds : ℤ
  hasZ : Bool
deriving DecidableEq

/-- Model of a Python `datetime` value: the instant plus whether the value is
timezone-aware.  `datetime.now()` yields a naive value; parsing a string with
a UTC offset yields an aware one. -/
structure PyDatetime where
  t : ℤ
  aware : Bool
deriving DecidableEq

/-- Model of `datetime.fromisoformat(ts.replace("Z", "+00:00"))` applied to a
valid ISO-8601 string: a trailing `Z` (rewritten to `+00:00`) produces an
aware datetime denoting the UTC instant; a string without an offset produces
a naive datetime. -/
def from_isoformat (ts : Timestamp) : PyDatetime :=
  { t := ts.seconds, aware := ts.hasZ }

/-- Python `a >= b` on datetimes: comparing an aware and a naive datetime
raises `TypeError`. -/
def dt_ge (a b : PyDatetime) : Except String Bool :=
  if a.aware = b.aware then .ok (decide (b.t ≤ a.t)) else .error "TypeError"

/-- Python `a < b` on datetimes: comparing an aware and a naive datetime
raises `TypeError`. -/
def dt_lt (a b : PyDatetime) : Except String Bool :=
  if a.aware = b.aware then .ok (decide (a.t < b.t)) else .error "TypeError"

/-- Python `dt.hour` for a datetime on the seconds axis (valid for the
non-negative instants the engine sees). -/
def py_hour (d : PyDatetime) : ℤ :=
  (d.t.ediv 3600).emod 24

/-- Python `int(x)`: truncation toward zero. -/
def py_int (q : ℚ) : ℤ :=
  if q < 0 then ⌈q⌉ else ⌊q⌋

/-- `statistics.mean` (callers guard against the empty list). -/
def py_mean (l : List ℚ) : ℚ := l.sum / l.length

/-- Stable insertion step matching Python sort order: a later element is
placed after every earlier element `y` with `le y x`. -/
def py_insert (le : α → α → Bool) (x : α) : List α → List α
  | [] => [x]
  | y :: ys => if le y x then y :: py_insert le x ys else x :: y :: ys

/-- Stable sort with respect to the total boolean preorder `le`.  Python's
`list.sort`/`sorted` are stable, so any stable sort computes the same list;
descending `reverse=True` sorts are obtained by flipping the key order in
`le`. -/
def py_sort (le : α → α → Bool) (l : List α) : List α :=
  l.foldl (fun acc x => py_insert le x acc) []

/-- `statistics.median`: middle element of the sorted data for odd length,
average of the two middle elements for even length. -/
def py_median (l : List ℚ) : ℚ :=
  let s := py_sort (fun a b => decide (a ≤ b)) l
  let n := l.length
  if n % 2 = 1 then s.getD (n / 2) 0
  else (s.getD (n / 2 - 1) 0 + s.getD (n / 2) 0) / 2

/-- Python `max` over a list (callers guard against the empty list). -/
def py_max_list (l : List ℚ) : ℚ :=
  match l with
  | [] => 0
  | h :: t => t.foldl max h

/-- Python `min` over a list (callers guard against the empty list). -/
def py_min_list (l : List ℚ) : ℚ :=
  match l with
  | [] => 0
  | h :: t => t.foldl min h

/-- First value bound to a key in an insertion-ordered dictionary. -/
def dict_get [DecidableEq α] (d : List (α × β)) (k : α) : Option β :=
  match d with
  | [] => none
  | (k0, v0) :: rest => if k0 = k then some v0 else dict_get rest k

/-- Python `d[k] = v`: overwrite in place when the key exists, otherwise
append the new key at the end (dicts preserve insertion order). -/
def dict_set [DecidableEq α] (d : List (α × β)) (k : α) (v : β) : List (α × β) :=
  match d with
  | [] => [(k, v)]
  | (k0, v0) :: rest => if k0 = k then (k0, v) :: rest else (k0, v0) :: dict_set rest k v

/-- Python truthiness of an optional number: `None` and `0` are falsy. -/
def truthy_num (o : Option ℚ) : Bool :=
  match o with
  | none => false
  | some v => decide (v ≠ 0)

/-- Python `a or b` on two optional numbers: the first operand when truthy,
otherwise the second. -/
def py_or_num (a b : Option ℚ) : Option ℚ :=
  match a with
  | none => b
  | some v => if v = 0 then b else some v

/-- Python `str.lower()`, character by character.  `Char.toLower` lowers
exactly the ASCII uppercase letters; every configured lookup key (category
names, task types, priorities) is ASCII. -/
def py_lower (s : String) : String :=
  ⟨s.data.map Char.toLower⟩

/-! ## DistractionDetector (src/python_service/src/ai/distraction_detector.py) -/

/-- One element of the `activities` list.  Fields mirror the keys read by the
detector; `activity_type` is read into a local variable the source never
uses, so it is not modelled. -/
structure Activity where
  activity_category : Option String
  duration_seconds : Option ℚ
  timestamp : Timestamp
  distraction_score : Option ℚ
deriving DecidableEq

/-- `self.distraction_categories[c]["weight"]` for the five configured
categories. -/
def category_weight_table (c : String) : Option ℚ :=
  if c = "communication" then some (8/10)
  else if c = "entertainment" then some (9/10)
  else if c = "social" then some (7/10)
  else if c = "news" then some (5/10)
  else if c = "work" then some (1/10)
  else none

/-- `self.distraction_categories.get(category, {}).get("weight", 0.5)`. -/
def weight_of (c : String) : ℚ :=
  (category_weight_table c).getD (1/2)

/-- `activity.get("activity_category", "unknown").lower()`. -/
def eff_category (a : Activity) : String :=
  py_lower (a.activity_category.getD "unknown")

/-- Per-category accumulator of `_calculate_distraction_scores` (the
`avg_score` field is filled by the second pass). -/
structure CatScore where
  count : ℕ
  total_duration : ℚ
  distraction_duration : ℚ
  avg_score : ℚ
deriving DecidableEq

/-- Loop state of `_calculate_distraction_scores`. -/
structure ScoreAcc where
  cats : List (String × CatScore)
  total_duration : ℚ
  distraction_duration : ℚ
deriving DecidableEq

/-- Body of the `for activity in activities` loop of
`_calculate_distraction_scores`: the overall pool only grows when the
category weight strictly exceeds the 0.5 threshold, while the per-category
pool grows unconditionally. -/
def score_step (acc : ScoreAcc) (a : Activity) : ScoreAcc :=
  let category := eff_category a
  let duration := a.duration_seconds.getD 0
  let weight := weight_of category
  let is_distraction := decide (weight > 1/2)
  let cur := (dict_get acc.cats category).getD ⟨0, 0, 0, 0⟩
  { cats := dict_set acc.cats category
      ⟨cur.count + 1, cur.total_duration + duration,
        cur.distraction_duration + duration * weight, cur.avg_score⟩
    total_duration := acc.total_duration + duration
    distraction_duration :=
      if is_distraction then acc.distraction_duration + duration * weight
      else acc.distraction_duration }

/-- Return value of `_calculate_distraction_scores`. -/
structure DistractionScores where
  overall_distraction_score : ℚ
  by_category : List (String × CatScore)
  total_duration_seconds : ℚ
  distraction_duration_seconds : ℚ
deriving DecidableEq

/-- `_calculate_distraction_scores`. -/
def calculate_distraction_scores (activities : List Activity) : DistractionScores :=
  let acc := activities.foldl score_step ⟨[], 0, 0⟩
  let cats := acc.cats.map fun kv =>
    (kv.1, { kv.2 with avg_score :=
      if kv.2.total_duration > 0 then kv.2.distraction_duration / kv.2.total_duration else 0 })
  let overall_score :=
    if acc.total_duration > 0 then acc.distraction_duration / acc.total_duration else 0
  { overall_distraction_score := min overall_score 1
    by_category := cats
    total_duration_seconds := acc.total_duration
    distraction_duration_seconds := acc.distraction_duration }

/-- Truthiness test `a.get("distraction_score")` used by the comprehension in
`_calculate_statistics`: a missing score and an explicit score of `0.0` are
both falsy. -/
def score_truthy (a : Activity) : Bool :=
  truthy_num a.distraction_score

/-- The `scores` comprehension of `_calculate_statistics`. -/
def stat_scores (activities : List Activity) : List ℚ :=
  (activities.filter score_truthy).map fun a => a.distraction_score.getD 0

/-- Return value of `_calculate_statistics`. -/
structure Stats where
  total_activities : ℕ
  avg_duration_seconds : ℚ
  median_duration_seconds : ℚ
  avg_distraction_score : ℚ
  max_distraction_score : ℚ
  min_distraction_score : ℚ
deriving DecidableEq

/-- `_calculate_statistics`.  The source also receives the distraction-scores
dictionary but never reads it, so that parameter is not modelled. -/
def calculate_statistics (activities : List Activity) : Stats :=
  let durations := activities.map fun a => a.duration_seconds.getD 0
  let scores := stat_scores activities
  { total_activities := activities.length
    avg_duration_seconds := if durations = [] then 0 else py_mean durations
    median_duration_seconds := if durations = [] then 0 else py_median durations
    avg_distraction_score := if scores = [] then 0 else py_mean scores
    max_distraction_score := if scores = [] then 0 else py_max_list scores
    min_distraction_score := if scores = [] then 0 else py_min_list scores }

/-- The list comprehension filtering `activities` by
`datetime.fromisoformat(...) >= cutoff_time`; the comparison can raise, which
aborts the whole call. -/
def filter_recent (activities : List Activity) (cutoff : PyDatetime) :
    Except String (List Activity) :=
  match activities with
  | [] => .ok []
  | a :: rest =>
    match dt_ge (from_isoformat a.timestamp) cutoff with
    | .error e => .error e
    | .ok keep =>
      match filter_recent rest cutoff with
      | .error e => .error e
      | .ok tail => .ok (if keep then a :: tail else tail)

/-- The report dictionary built on the success path of
`analyze_activity_patterns`.  The `patterns`, `insights` and `analyzed_at`
fields are not modelled: no claim references them, and on the success path
they cannot raise (every post-filter timestamp compared without fault against
the naive cutoff is itself naive, so the re-parsing and subtraction in
`_detect_patterns` never mixes aware and naive values). -/
structure AnalysisReport where
  analysis_period_hours : ℤ
  total_activities : ℕ
  distraction_scores : DistractionScores
  statistics : Stats
  model_version : String
deriving DecidableEq

/-- Result dictionary of `analyze_activity_patterns`: either the reported
error object `{error, total_activities: 0}` or the full report. -/
inductive AnalyzeResult where
  | error_result (error : String) (total_activities : ℕ)
  | report (r : AnalysisReport)
deriving DecidableEq

/-- `analyze_activity_patterns`.  `now` is the naive instant returned by
`datetime.now()`; `cutoff_time = datetime.now() - timedelta(hours=...)` is
therefore a naive datetime. -/
def analyze_activity_patterns (activities : List Activity)
    (time_window_hours : ℤ) (now : ℤ) : Except String AnalyzeResult :=
  match activities with
  | [] => .ok (.error_result "No activities provided for analysis" 0)
  | _ =>
    let cutoff : PyDatetime := { t := now - time_window_hours * 3600, aware := false }
    match filter_recent activities cutoff with
    | .error e => .error e
    | .ok recent =>
      match recent with
      | [] => .ok (.error_result "No recent activities in the specified time window" 0)
      | _ => .ok (.report
          { analysis_period_hours := time_window_hours
            total_activities := recent.length
            distraction_scores := calculate_distraction_scores recent
            statistics := calculate_statistics recent
            model_version := "v1.0" })

/-! ## TimePredictor (src/python_service/src/ai/time_predictor.py) -/

/-- Python `str.split()` with no separator: split on whitespace runs,
dropping empty pieces. -/
def py_split (s : String) : List String :=
  (s.split Char.isWhitespace).filter fun w => w ≠ ""

/-- Python `sub in s` substring containment. -/
def py_contains (s sub : String) : Bool :=
  decide (sub.data <:+: s.data)

/-- The task dictionary as read by the predictor. -/
structure PTask where
  id : Option String
  title : Option String
  description : Option String
  ptype : Option String
  priority : Option String
  due_date : Option String
  estimated_minutes : Option ℚ
  tags : List String
deriving DecidableEq

/-- A historical task dictionary as read by `_find_similar_tasks` and
`_adjust_with_history`. -/
structure HistTask where
  htype : Option String
  title : Option String
  priority : Option String
  tags : List String
  actual_minutes : Option ℚ
  duration_minutes : Option ℚ
deriving DecidableEq

/-- `self.base_estimates.get(task_type, self.base_estimates["general"])`. -/
def base_estimates_lookup (task_type : String) : ℚ :=
  if task_type = "email" then 5
  else if task_type = "meeting" then 60
  else if task_type = "coding" then 90
  else if task_type = "writing" then 45
  else if task_type = "research" then 60
  else if task_type = "design" then 120
  else if task_type = "review" then 30
  else if task_type = "planning" then 60
  else 30

/-- The feature dictionary built by `_extract_features`. -/
structure Features where
  title_length : ℕ
  description_length : ℕ
  word_count : ℕ
  task_type : String
  priority : String
  has_deadline : Bool
  estimated_minutes : Option ℚ
  tags : List String
  complexity_score : ℕ
  urgency_score : ℕ
deriving DecidableEq

/-- The five complexity keywords. -/
def complexity_keywords : List String :=
  ["complex", "difficult", "challenging", "multiple", "several"]

/-- The five urgency keywords. -/
def urgency_keywords : List String :=
  ["urgent", "asap", "immediate", "critical", "important"]

/-- `_extract_features`.  `bool(task.get("due_date"))` is true exactly for a
present, non-empty due-date string. -/
def extract_features (task : PTask) : Features :=
  let title := py_lower (task.title.getD "")
  let description := py_lower (task.description.getD "")
  let task_type := py_lower (task.ptype.getD "general")
  { title_length := title.length
    description_length := description.length
    word_count := (py_split title).length + (py_split description).length
    task_type := task_type
    priority := py_lower (task.priority.getD "medium")
    has_deadline := match task.due_date with
      | none => false
      | some s => s ≠ ""
    estimated_minutes := task.estimated_minutes
    tags := task.tags
    complexity_score :=
      (complexity_keywords.filter fun kw => py_contains title kw || py_contains description kw).length
    urgency_score :=
      (urgency_keywords.filter fun kw => py_contains title kw || py_contains description kw).length }

/-- `_get_base_estimate`.  The word-count adjustment reproduces the source's
`if word_count > 500: base *= 1.5 / elif word_count > 1000: base *= 2.0`
chain verbatim: because every count above 1000 is also above 500, the first
branch fires and the `elif` branch is unreachable.  The `task` parameter is
kept from the source signature; the body only reads `features`. -/
def get_base_estimate (task : PTask) (features : Features) : ℚ :=
  let task_type := features.task_type
  let base0 := base_estimates_lookup task_type
  let base1 :=
    if task_type = "writing" ∨ task_type = "research" ∨ task_type = "email" then
      if features.word_count > 500 then base0 * (3/2)
      else if features.word_count > 1000 then base0 * 2
      else base0
    else base0
  if features.complexity_score > 0 then
    base1 * (1 + (features.complexity_score : ℚ) * (2/10))
  else base1

/-- The composite similarity score of `_find_similar_tasks` for one
historical task.  Word and tag overlaps are Jaccard ratios over Python sets,
guarded so that an empty set on either side contributes nothing. -/
def similarity_score (task : PTask) (hist : HistTask) : ℚ :=
  let task_title := py_lower (task.title.getD "")
  let task_type := py_lower (task.ptype.getD "general")
  let type_part : ℚ := if py_lower (hist.htype.getD "") = task_type then 3 else 0
  let task_words := (py_split task_title).toFinset
  let hist_words := (py_split (py_lower (hist.title.getD ""))).toFinset
  let title_part : ℚ :=
    if task_words ≠ ∅ ∧ hist_words ≠ ∅ then
      ((task_words ∩ hist_words).card : ℚ) / ((task_words ∪ hist_words).card : ℚ) * 2
    else 0
  let priority_part : ℚ :=
    if py_lower (hist.priority.getD "") = py_lower (task.priority.getD "medium") then 1 else 0
  let task_tags := task.tags.toFinset
  let hist_tags := hist.tags.toFinset
  let tag_part : ℚ :=
    if task_tags ≠ ∅ ∧ hist_tags ≠ ∅ then
      ((task_tags ∩ hist_tags).card : ℚ) / ((task_tags ∪ hist_tags).card : ℚ)
    else 0
  type_part + title_part + priority_part + tag_part

/-- `_find_similar_tasks`: keep historical tasks whose similarity score meets
the threshold 2, in input order, capped at 10. -/
def find_similar_tasks (task : PTask) (historical_data : List HistTask) : List HistTask :=
  (historical_data.filter fun h => decide (similarity_score task h ≥ 2)).take 10

/-- `_adjust_with_history`.  `if not historical_data` is true for both `None`
and the empty list; the `actual_durations` comprehension uses Python `or` and
truthiness, so a `0` duration counts as absent. -/
def adjust_with_history (base_estimate : ℚ) (task : PTask)
    (historical_data : Option (List HistTask)) : ℚ :=
  match historical_data with
  | none => base_estimate
  | some hd =>
    if hd = [] then base_estimate
    else
      let similar_tasks := find_similar_tasks task hd
      if similar_tasks = [] then base_estimate
      else
        let actual_durations :=
          (similar_tasks.filter fun t => truthy_num (py_or_num t.actual_minutes t.duration_minutes)).map
            fun t => (py_or_num t.actual_minutes t.duration_minutes).getD 0
        if actual_durations = [] then base_estimate
        else
          let avg_actual := py_mean actual_durations
          let median_actual := py_median actual_durations
          let adjusted := avg_actual * (3/10) + median_actual * (7/10)
          let similarity_confidence := min ((similar_tasks.length : ℚ) / 5) 1
          base_estimate * (1 - similarity_confidence) + adjusted * similarity_confidence

/-- The user-profile dictionary.  A `None` or empty (falsy) profile is
modelled as `none`; Python truthiness makes an average of `0` behave like a
missing one. -/
structure UserProfile where
  average_task_duration_minutes : Option ℚ
deriving DecidableEq

/-- `_adjust_with_profile`. -/
def adjust_with_profile (estimate : ℚ) (user_profile : Option UserProfile) : ℚ :=
  match user_profile with
  | none => estimate
  | some p =>
    match p.average_task_duration_minutes with
    | none => estimate
    | some avg => if avg = 0 then estimate else estimate * (avg / 30)

/-- `not task.get("description") or len(task.get("description", "")) < 10`:
a missing or empty description is falsy and the empty string also has length
below 10, so the test reduces to: absent, or fewer than 10 characters. -/
def vague_description (task : PTask) : Bool :=
  match task.description with
  | none => true
  | some s => decide (s.length < 10)

/-- `_calculate_confidence`: clamped to `[0.3, 0.95]` by the final
`max(0.3, min(0.95, confidence))`. -/
def calculate_confidence (task : PTask) (historical_data : Option (List HistTask))
    (user_profile : Option UserProfile) : ℚ :=
  let c0 : ℚ := 1/2
  let c1 :=
    match historical_data with
    | none => c0
    | some hd =>
      if hd = [] then c0
      else
        let similar_count := (find_similar_tasks task hd).length
        if similar_count > 0 then c0 + min ((similar_count : ℚ) / 10) (3/10) else c0
  let c2 :=
    match user_profile with
    | none => c1
    | some p =>
      match p.average_task_duration_minutes with
      | none => c1
      | some avg => if avg = 0 then c1 else c1 + 2/10
  let c3 := if vague_description task then c2 - 1/10 else c2
  max (3/10) (min (19/20) c3)

/-- Round-half-to-even to an integer, the rounding Python's `round` uses. -/
def round_half_even (q : ℚ) : ℤ :=
  let f := ⌊q⌋
  let r := q - (f : ℚ)
  if r < 1/2 then f
  else if (1/2 : ℚ) < r then f + 1
  else if Even f then f else f + 1

/-- Python `round(x, 2)` (on the exact rational model of the arithmetic). -/
def py_round2 (q : ℚ) : ℚ :=
  ((round_half_even (q * 100) : ℚ)) / 100

/-- `_generate_reasoning`. -/
def generate_reasoning (task : PTask) (estimate : ℚ) (confidence : ℚ) : String :=
  let task_type := task.ptype.getD "general"
  let head := "Based on " ++ task_type ++ " task patterns, estimated duration is "
    ++ toString (py_int estimate) ++ " minutes. "
  head ++
    (if confidence > 7/10 then "High confidence based on similar historical tasks."
     else if confidence > 1/2 then "Moderate confidence with some uncertainty."
     else "Lower confidence - task details may need refinement.")

/-- The prediction dictionary returned by `predict_task_duration`.  The
`predicted_at` wall-clock field is not modelled. -/
structure Prediction where
  task_id : Option String
  predicted_minutes : ℤ
  confidence_score : ℚ
  base_estimate_minutes : ℤ
  reasoning : String
  input_features : Features
  model_version : String
deriving DecidableEq

/-- `predict_task_duration`. -/
def predict_task_duration (task : PTask) (historical_data : Option (List HistTask))
    (user_profile : Option UserProfile) : Prediction :=
  let features := extract_features task
  let base_estimate := get_base_estimate task features
  let adjusted_estimate := adjust_with_history base_estimate task historical_data
  let final_estimate := adjust_with_profile adjusted_estimate user_profile
  let confidence := calculate_confidence task historical_data user_profile
  { task_id := task.id
    predicted_minutes := py_int final_estimate
    confidence_score := py_round2 confidence
    base_estimate_minutes := py_int base_estimate
    reasoning := generate_reasoning task final_estimate confidence
    input_features := features
    model_version := "v1.0" }

/-! ## SmartSuggestions (src/python_service/src/ai/smart_suggestions.py) -/

/-- A focus-session dictionary as read by the suggestion generators.  Only
valid `started_at` strings are modelled (see `Timestamp`). -/
structure FocusSession where
  started_at : Timestamp
  duration_minutes : Option ℚ
  interruption_count : Option ℚ
deriving DecidableEq

/-- A task dictionary as read by `_generate_task_prioritization_suggestions`.
Only the fields that generator reads are modelled; a present `due_date`
models a truthy (non-empty, parseable) due-date string. -/
structure STask where
  status : Option String
  priority : Option String
  due_date : Option Timestamp
deriving DecidableEq

/-- An activity-pattern dictionary as read by
`_generate_pattern_suggestions`. -/
structure ActivityPattern where
  distraction_score : Option ℚ
  activity_category : Option String
deriving DecidableEq

/-- A generated suggestion.  The textual fields (`title`, `description`,
`rationale`, `action_items`, `expected_benefit`) and the free-form
`context_data` mapping are formatted payload no claim references, so only
the discriminating `suggestion_type` and the ranking key `priority_score`
are modelled. -/
structure Suggestion where
  suggestion_type : String
  priority_score : ℚ
deriving DecidableEq

/-- Per-hour accumulator of `_generate_schedule_suggestions`. -/
structure HourProd where
  duration : ℚ
  interruptions : ℚ
  count : ℕ
deriving DecidableEq

/-- The `hourly_productivity` dictionary of
`_generate_schedule_suggestions`, keyed by `started_at.hour`. -/
def hourly_productivity (focus_sessions : List FocusSession) : List (ℤ × HourProd) :=
  focus_sessions.foldl
    (fun acc s =>
      let hour := py_hour (from_isoformat s.started_at)
      let cur := (dict_get acc hour).getD ⟨0, 0, 0⟩
      dict_set acc hour
        ⟨cur.duration + s.duration_minutes.getD 0,
         cur.interruptions + s.interruption_count.getD 0,
         cur.count + 1⟩)
    []

/-- Sort key of `best_hours`: `duration / max(interruptions, 1)`. -/
def hour_ratio (hp : HourProd) : ℚ :=
  hp.duration / max hp.interruptions 1

/-- `_generate_schedule_suggestions`: at most one suggestion, fixed
priority score 0.85.  `productivity_data` is received but never read. -/
def schedule_suggestions (focus_sessions : List FocusSession)
    (productivity_data : Unit) : List Suggestion :=
  match focus_sessions with
  | [] => []
  | _ =>
    let hourly := hourly_productivity focus_sessions
    if hourly = [] then []
    else
      let best_hours :=
        (py_sort (fun a b => decide (hour_ratio b.2 ≤ hour_ratio a.2)) hourly).take 3
      if best_hours = [] then []
      else [{ suggestion_type := "schedule_optimization", priority_score := 17/20 }]

/-- The filter for incomplete urgent/high tasks: `t.get("status")` (which may
be `None`) must not be `completed`/`cancelled`, and the lower-cased priority
(default `medium`) must be `urgent` or `high`. -/
def incomplete_high_priority_filter (t : STask) : Bool :=
  (match t.status with
   | none => true
   | some s => decide (¬(s = "completed" ∨ s = "cancelled"))) &&
  (decide (py_lower (t.priority.getD "medium") = "urgent"
    ∨ py_lower (t.priority.getD "medium") = "high"))

/-- The `overdue` comprehension: keep tasks with a truthy `due_date` whose
parsed value is `< datetime.now()`; that comparison raises for an aware
(trailing-`Z`) due date against the naive `now`. -/
def filter_overdue (tasks : List STask) (now : ℤ) : Except String (List STask) :=
  match tasks with
  | [] => .ok []
  | t :: rest =>
    let keep : Except String Bool :=
      match t.due_date with
      | none => .ok false
      | some ts => dt_lt (from_isoformat ts) { t := now, aware := false }
    match keep with
    | .error e => .error e
    | .ok k =>
      match filter_overdue rest now with
      | .error e => .error e
      | .ok tail => .ok (if k then t :: tail else tail)

/-- `_generate_task_prioritization_suggestions`: at most one suggestion,
fixed priority score 0.95. -/
def task_prioritization_suggestions (tasks : List STask) (now : ℤ) :
    Except String (List Suggestion) :=
  let incomplete := tasks.filter incomplete_high_priority_filter
  if incomplete = [] then .ok []
  else
    match filter_overdue incomplete now with
    | .error e => .error e
    | .ok overdue =>
      if overdue = [] then .ok []
      else .ok [{ suggestion_type := "task_prioritization", priority_score := 19/20 }]

/-- `_generate_break_timing_suggestions`: at most one suggestion, fixed
priority score 0.75.  `activity_patterns` is received but never read. -/
def break_timing_suggestions (focus_sessions : List FocusSession)
    (activity_patterns : List ActivityPattern) : List Suggestion :=
  match focus_sessions with
  | [] => []
  | _ =>
    let sessions_with_interruptions :=
      focus_sessions.filter fun s => decide (s.interruption_count.getD 0 > 0)
    if sessions_with_interruptions = [] then []
    else
      let avg_duration :=
        py_mean (sessions_with_interruptions.map fun s => s.duration_minutes.getD 0)
      let avg_interruptions :=
        py_mean (sessions_with_interruptions.map fun s => s.interruption_count.getD 0)
      if avg_interruptions > 3 ∧ avg_duration > 50 then
        [{ suggestion_type := "break_timing", priority_score := 3/4 }]
      else []

/-- `_generate_duration_suggestions`: at most one suggestion, fixed priority
score 0.70.  `tasks` is received but never read; the median of the
successful-session durations feeds only the omitted text fields. -/
def duration_suggestions (focus_sessions : List FocusSession)
    (tasks : List STask) : List Suggestion :=
  match focus_sessions with
  | [] => []
  | _ =>
    let successful_sessions := focus_sessions.filter fun s =>
      decide (s.interruption_count.getD 0 ≤ 1) && decide (s.duration_minutes.getD 0 ≥ 30)
    if successful_sessions = [] then []
    else
      let optimal_durations : List ℚ := successful_sessions.map fun s => s.duration_minutes.getD 0
      if optimal_durations = [] then []
      else [{ suggestion_type := "focus_duration", priority_score := 7/10 }]

/-- `_generate_pattern_suggestions`: at most one suggestion, fixed priority
score 0.80.  `focus_sessions` is received but never read; the most frequent
category of the count dictionary feeds only the omitted text fields. -/
def pattern_suggestions (activity_patterns : List ActivityPattern)
    (focus_sessions : List FocusSession) : List Suggestion :=
  match activity_patterns with
  | [] => []
  | _ =>
    let high_distraction := activity_patterns.filter fun a =>
      decide (a.distraction_score.getD 0 > 7/10)
    if high_distraction = [] then []
    else
      let distraction_types : List (String × ℕ) :=
        high_distraction.foldl
          (fun acc a =>
            let category := a.activity_category.getD "unknown"
            dict_set acc category ((dict_get acc category).getD 0 + 1))
          []
      if distraction_types = [] then []
      else [{ suggestion_type := "distraction_management", priority_score := 8/10 }]

/-- The descending stable order used by
`suggestions.sort(key=lambda x: x.get("priority_score", 0), reverse=True)`
(every generated suggestion carries the key). -/
def sugg_order (a b : Suggestion) : Bool :=
  decide (b.priority_score ≤ a.priority_score)

/-- `generate_suggestions`.  `user_id` and `productivity_data` are received
but never read by any sub-generator; `now` is the naive `datetime.now()`
instant used by the task-prioritization generator.  The only effect is the
possible exception from comparing an aware due date with the naive `now`,
modelled by `Except`. -/
def generate_suggestions (user_id : String) (productivity_data : Unit)
    (focus_sessions : List FocusSession) (tasks : List STask)
    (activity_patterns : List ActivityPattern) (now : ℤ) :
    Except String (List Suggestion) :=
  match task_prioritization_suggestions tasks now with
  | .error e => .error e
  | .ok task_suggs =>
    let all := schedule_suggestions focus_sessions productivity_data
      ++ task_suggs
      ++ break_timing_suggestions focus_sessions activity_patterns
      ++ duration_suggestions focus_sessions tasks
      ++ pattern_suggestions activity_patterns focus_sessions
    .ok ((py_sort sugg_order all).take 10)

/-! ## FocusCoach (src/python_service/src/ai/focus_coach.py), `summarize_tasks` -/

/-- A task dictionary as read by `summarize_tasks`. -/
structure CTask where
  title : Option String
  category : Option String
  priority : Option String
  estimated_minutes : Option ℚ
  duration_minutes : Option ℚ
deriving DecidableEq

/-- The part of the `summarize_tasks` return dictionary the claims concern.
The `summary` prose field (built by the rule-based fallback of
`_generate_ai_summary` when no language-model client is injected) and the
constant `model_version` are not modelled. -/
structure TaskSummary where
  total_tasks : ℕ
  categories : List (String × ℕ)
  priority_breakdown : List (String × ℕ)
  total_estimated_minutes : ℚ
  average_task_minutes : ℚ
deriving DecidableEq

/-- The initial `{"urgent": 0, "high": 0, "medium": 0, "low": 0}` histogram. -/
def init_breakdown : List (String × ℕ) :=
  [("urgent", 0), ("high", 0), ("medium", 0), ("low", 0)]

/-- The lower-cased priority key a task is tallied under:
`task.get("priority", "medium").lower()`. -/
def eff_priority (t : CTask) : String :=
  py_lower (t.priority.getD "medium")

/-- The per-task update of the loop in `summarize_tasks`:
`priority_breakdown[priority] = priority_breakdown.get(priority, 0) + 1`. -/
def breakdown_step (bd : List (String × ℕ)) (t : CTask) : List (String × ℕ) :=
  dict_set bd (eff_priority t) ((dict_get bd (eff_priority t)).getD 0 + 1)

/-- The estimated minutes a task contributes:
`task.get("estimated_minutes", 0) or task.get("duration_minutes", 0)` with
Python `or` (a zero or missing estimate falls through to the duration). -/
def task_minutes (t : CTask) : ℚ :=
  let e := t.estimated_minutes.getD 0
  if e ≠ 0 then e else t.duration_minutes.getD 0

/-- The `categories` grouping of `summarize_tasks` (title lists per
category key, insertion-ordered). -/
def category_groups (tasks : List CTask) : List (String × List String) :=
  tasks.foldl
    (fun acc t =>
      let category := t.category.getD "general"
      let cur := (dict_get acc category).getD []
      dict_set acc category (cur ++ [t.title.getD ""]))
    []

/-- `summarize_tasks`.  The empty task list returns the fixed zero-count
dictionary whose `priority_breakdown` is the *empty* mapping, not the
four-bucket one. -/
def summarize_tasks (tasks : List CTask) : TaskSummary :=
  match tasks with
  | [] =>
    { total_tasks := 0
      categories := []
      priority_breakdown := []
      total_estimated_minutes := 0
      average_task_minutes := 0 }
  | _ =>
    let breakdown := tasks.foldl breakdown_step init_breakdown
    let total_minutes := (tasks.map task_minutes).sum
    { total_tasks := tasks.length
      categories := (category_groups tasks).map fun kv => (kv.1, kv.2.length)
      priority_breakdown := breakdown
      total_estimated_minutes := total_minutes
      average_task_minutes := total_minutes / tasks.length }

/-! ## Claim-side definitions

Definitions in this section follow the words of the specification claims (for
refutation or refinement comparison with the code-derived definitions above),
not the source. -/

/-- Total `duration_seconds` over an activity list. -/
def activities_total_duration (activities : List Activity) : ℚ :=
  (activities.map fun a => a.duration_seconds.getD 0).sum

/-- The distraction pool the code actually accumulates: `duration × weight`
summed over exactly those activities whose category weight strictly exceeds
0.5. -/
def thresholded_distraction_pool (activities : List Activity) : ℚ :=
  ((activities.filter fun a => decide (weight_of (eff_category a) > 1/2)).map
    fun a => a.duration_seconds.getD 0 * weight_of (eff_category a)).sum

/-- The overall distraction pool as claim C2 words it: `duration × weight`
added for every activity unconditionally. -/
def unconditional_distraction_pool (activities : List Activity) : ℚ :=
  (activities.map fun a => a.duration_seconds.getD 0 * weight_of (eff_category a)).sum

/-- The statistics population as claim C4 words it: every activity carrying
an explicit `distraction_score` field, an explicit `0.0` included. -/
def explicit_scores (activities : List Activity) : List ℚ :=
  (activities.filter fun a => a.distraction_score.isSome).map
    fun a => a.distraction_score.getD 0

/-- The number of tasks tallied under histogram key `s` by
`summarize_tasks`. -/
def count_priority (tasks : List CTask) (s : String) : ℕ :=
  (tasks.filter fun t => decide (eff_priority t = s)).length

/-- The confidence computation with the historical branch absent, as the
pipeline of claim C8 words it (base estimate, then profile adjustment
only). -/
def confidence_without_history (task : PTask) (user_profile : Option UserProfile) : ℚ :=
  let c0 : ℚ := 1/2
  let c2 :=
    match user_profile with
    | none => c0
    | some p =>
      match p.average_task_duration_minutes with
      | none => c0
      | some avg => if avg = 0 then c0 else c0 + 2/10
  let c3 := if vague_description task then c2 - 1/10 else c2
  max (3/10) (min (19/20) c3)

/-- The prediction pipeline of claim C8: base estimate followed by profile
adjustment only, with no historical blend applied. -/
def predict_with_profile_only (task : PTask) (user_profile : Option UserProfile) : Prediction :=
  let features := extract_features task
  let base_estimate := get_base_estimate task features
  let final_estimate := adjust_with_profile base_estimate user_profile
  let confidence := confidence_without_history task user_profile
  { task_id := task.id
    predicted_minutes := py_int final_estimate
    confidence_score := py_round2 confidence
    base_estimate_minutes := py_int base_estimate
    reasoning := generate_reasoning task final_estimate confidence
    input_features := features
    model_version := "v1.0" }

/-! ## Helper lemmas -/

theorem dict_get_dict_set [DecidableEq α] (d : List (α × β)) (k : α) (v : β) (s : α) :
    dict_get (dict_set d k v) s = if s = k then some v else dict_get d s := by
  induction d with
  | nil =>
    simp only [dict_set, dict_get]
    by_cases h : s = k
    · subst h; simp
    · have h2 : ¬k = s := fun hh => h hh.symm
      simp [h, h2]
  | cons kv rest ih =>
    obtain ⟨k0, v0⟩ := kv
    simp only [dict_set]
    by_cases h0 : k0 = k
    · subst h0
      simp only [if_pos rfl, dict_get]
      by_cases h : s = k0
      · subst h; simp
      · have h2 : ¬k0 = s := fun hh => h hh.symm
        simp [h, h2]
    · rw [if_neg h0]
      simp only [dict_get]
      by_cases h1 : k0 = s
      · subst h1
        simp [fun hh => h0 (hh : k0 = k)]
      · simp [h1, ih]

theorem score_fold_totals (as : List Activity) : ∀ acc : ScoreAcc,
    (as.foldl score_step acc).total_duration = acc.total_duration + activities_total_duration as ∧
    (as.foldl score_step acc).distraction_duration
      = acc.distraction_duration + thresholded_distraction_pool as := by
  induction as with
  | nil =>
    intro acc
    simp [activities_total_duration, thresholded_distraction_pool]
  | cons a rest ih =>
    intro acc
    simp only [List.foldl_cons]
    obtain ⟨h1, h2⟩ := ih (score_step acc a)
    refine ⟨?_, ?_⟩
    · rw [h1]
      simp only [score_step, activities_total_duration, List.map_cons, List.sum_cons]
      ring
    · rw [h2]
      by_cases hw : weight_of (eff_category a) > 1/2
      · simp only [score_step, thresholded_distraction_pool, List.filter_cons,
          decide_eq_true hw, if_pos, List.map_cons, List.sum_cons, decide_True]
        simp [hw]
        ring
      · have hw2 : ¬((2:ℚ)⁻¹ < weight_of (eff_category a)) := by
          rw [one_div] at hw; exact hw
        simp only [score_step, thresholded_distraction_pool, List.filter_cons]
        simp [hw, hw2]

/-! ## Claim theorems -/

/-- C1 (code bug).  For a non-empty activity list whose timestamp carries a
trailing `Z`, `analyze_activity_patterns` does not return a result object at
all: parsing yields an aware (UTC) datetime, `cutoff_time` is the naive
`datetime.now() - timedelta(...)`, and the `>=` comparison in the
time-window filter raises `TypeError`, contradicting the claim that the
comparison never faults.  The activity below is well inside the 24-hour
window. -/
theorem c1_utc_timestamp_comparison_raises :
    analyze_activity_patterns
      [{ activity_category := some "entertainment", duration_seconds := some 600,
         timestamp := { seconds := 999000, hasZ := true }, distraction_score := none }]
      24 1000000 = .error "TypeError" := rfl

/-- C3 (code bug).  In `_get_base_estimate` the source tests
`word_count > 500` *before* `word_count > 1000`, so for a writing task with
1200 words the first branch fires and the baseline 45 is multiplied by 1.5,
not by the 2.0 the claim (and spec) require; the `elif word_count > 1000`
branch is unreachable. -/
theorem c3_wordcount_above_1000_gets_only_1_5x :
    get_base_estimate
      { id := none, title := none, description := none, ptype := some "writing",
        priority := none, due_date := none, estimated_minutes := none, tags := [] }
      { title_length := 0, description_length := 0, word_count := 1200,
        task_type := "writing", priority := "medium", has_deadline := false,
        estimated_minutes := none, tags := [], complexity_score := 0,
        urgency_score := 0 }
      = 45 * (3/2) ∧ (45 * (3/2) : ℚ) ≠ 45 * 2 := by
  constructor
  · simp +decide [get_base_estimate, base_estimates_lookup]
  · norm_num

/-- C5 (code bug).  The empty activity list does return the reported
`{error, total_activities: 0}` object, and so does an all-outside-window
list with a naive timestamp; but an all-outside-window list whose timestamp
carries a trailing `Z` raises `TypeError` in the window filter instead of
returning the error object, contradicting the claim's no-exception
guarantee.  (`now = 10^6`, window 24 h, activity at instant 0.) -/
theorem c5_empty_and_outside_window_results :
    analyze_activity_patterns [] 24 1000000
        = .ok (.error_result "No activities provided for analysis" 0) ∧
    analyze_activity_patterns
        [{ activity_category := none, duration_seconds := some 5,
           timestamp := { seconds := 0, hasZ := false }, distraction_score := none }]
        24 1000000
        = .ok (.error_result "No recent activities in the specified time window" 0) ∧
    analyze_activity_patterns
        [{ activity_category := none, duration_seconds := some 5,
           timestamp := { seconds := 0, hasZ := true }, distraction_score := none }]
        24 1000000
        = .error "TypeError" :=
  ⟨rfl, rfl, rfl⟩

/-- C2 counterexample.  A single `news` activity (weight exactly 0.5, not
strictly above the threshold) contributes nothing to the code's overall
distraction pool, while the claim's unconditional pool would receive
`100 × 0.5 = 50`: the overall pool is not accumulated unconditionally. -/
theorem c2_news_activity_refutes_unconditional_pool :
    (calculate_distraction_scores
        [{ activity_category := some "news", duration_seconds := some 100,
           timestamp := { seconds := 0, hasZ := false }, distraction_score := none }]).distraction_duration_seconds
      ≠ unconditional_distraction_pool
        [{ activity_category := some "news", duration_seconds := some 100,
           timestamp := { seconds := 0, hasZ := false }, distraction_score := none }] := by
  have hcat : eff_category
      { activity_category := some "news", duration_seconds := some 100,
        timestamp := { seconds := 0, hasZ := false }, distraction_score := none } = "news" := by
    decide
  simp only [calculate_distraction_scores, unconditional_distraction_pool,
    List.foldl_cons, List.foldl_nil, List.map_cons, List.map_nil, List.sum_cons,
    List.sum_nil, score_step, hcat]
  simp +decide only [weight_of, category_weight_table, if_false]
  norm_num

/-- C2 (amended).  `_calculate_distraction_scores` adds `duration × weight`
to the *overall* pool only for activities whose category weight strictly
exceeds 0.5 (the per-category pools do accumulate unconditionally), and the
overall score is that thresholded pool divided by the total duration (0 when
the total duration is 0), clamped to at most 1.0. -/
theorem c2_overall_pool_is_thresholded (activities : List Activity) :
    (calculate_distraction_scores activities).total_duration_seconds
        = activities_total_duration activities ∧
    (calculate_distraction_scores activities).distraction_duration_seconds
        = thresholded_distraction_pool activities ∧
    (calculate_distraction_scores activities).overall_distraction_score
        = min (if activities_total_duration activities > 0 then
                 thresholded_distraction_pool activities / activities_total_duration activities
               else 0) 1 := by
  obtain ⟨h1, h2⟩ := score_fold_totals activities ⟨[], 0, 0⟩
  refine ⟨?_, ?_, ?_⟩
  · show (activities.foldl score_step ⟨[], 0, 0⟩).total_duration = _
    rw [h1]; ring
  · show (activities.foldl score_step ⟨[], 0, 0⟩).distraction_duration = _
    rw [h2]; ring
  · show min (if (activities.foldl score_step ⟨[], 0, 0⟩).total_duration > 0 then
        (activities.foldl score_step ⟨[], 0, 0⟩).distraction_duration
          / (activities.foldl score_step ⟨[], 0, 0⟩).total_duration
      else 0) 1 = _
    rw [h1, h2]
    norm_num

/-- C4 counterexample.  Two activities, one with an explicit
`distraction_score` of `0.0` and one with `1.0`: the truthiness filter
`if a.get("distraction_score")` drops the explicit `0.0`, so the code
averages `[1.0]` to `1.0`, while the claim's population (every activity
carrying the field, explicit `0.0` included) averages `[0.0, 1.0]` to
`0.5`. -/
theorem c4_explicit_zero_score_excluded :
    (calculate_statistics
        [{ activity_category := none, duration_seconds := some 10,
           timestamp := { seconds := 0, hasZ := false }, distraction_score := some 0 },
         { activity_category := none, duration_seconds := some 20,
           timestamp := { seconds := 0, hasZ := false }, distraction_score := some 1 }]).avg_distraction_score
      ≠ py_mean (explicit_scores
        [{ activity_category := none, duration_seconds := some 10,
           timestamp := { seconds := 0, hasZ := false }, distraction_score := some 0 },
         { activity_category := none, duration_seconds := some 20,
           timestamp := { seconds := 0, hasZ := false }, distraction_score := some 1 }]) := by
  simp only [calculate_statistics, explicit_scores, stat_scores, score_truthy, truthy_num,
    List.filter_cons, List.filter_nil, List.map_cons, List.map_nil, py_mean,
    List.sum_cons, List.sum_nil, List.length_cons, List.length_nil]
  norm_num

/-- C4 (amended).  The mean/max/min distraction-score statistics of
`_calculate_statistics` are computed over exactly those activities whose
`distraction_score` field is present *and nonzero*: the Python truthiness
test excludes an explicit score of `0.0` just like a missing field. -/
theorem c4_statistics_population (activities : List Activity) :
    stat_scores activities
        = (activities.filter fun a =>
            decide (a.distraction_score ≠ none ∧ a.distraction_score ≠ some 0)).map
            (fun a => a.distraction_score.getD 0) ∧
    (calculate_statistics activities).avg_distraction_score
        = (if stat_scores activities = [] then 0 else py_mean (stat_scores activities)) ∧
    (calculate_statistics activities).max_distraction_score
        = (if stat_scores activities = [] then 0 else py_max_list (stat_scores activities)) ∧
    (calculate_statistics activities).min_distraction_score
        = (if stat_scores activities = [] then 0 else py_min_list (stat_scores activities)) := by
  refine ⟨?_, rfl, rfl, rfl⟩
  unfold stat_scores
  congr 1
  apply List.filter_congr
  intro a _
  cases h : a.distraction_score with
  | none => simp [score_truthy, truthy_num, h]
  | some v => by_cases hv : v = 0 <;> simp [score_truthy, truthy_num, h, hv]

theorem count_priority_cons (t : CTask) (ts : List CTask) (s : String) :
    count_priority (t :: ts) s
      = (if eff_priority t = s then 1 else 0) + count_priority ts s := by
  by_cases h : eff_priority t = s <;> simp [count_priority, List.filter_cons, h] <;> omega

theorem breakdown_fold (tasks : List CTask) : ∀ (bd : List (String × ℕ)) (s : String),
    dict_get (tasks.foldl breakdown_step bd) s =
      match dict_get bd s with
      | some n => some (n + count_priority tasks s)
      | none => if count_priority tasks s ≠ 0 then some (count_priority tasks s) else none := by
  induction tasks with
  | nil =>
    intro bd s
    simp only [List.foldl_nil, count_priority, List.filter_nil, List.length_nil]
    cases dict_get bd s <;> simp
  | cons t ts ih =>
    intro bd s
    rw [List.foldl_cons, ih, count_priority_cons]
    by_cases hp : eff_priority t = s
    · rw [breakdown_step, dict_get_dict_set, hp, if_pos rfl]
      cases hbd : dict_get bd s with
      | some n =>
        simp [hbd]
        omega
      | none =>
        simp [hbd]
    · have hp2 : ¬ s = eff_priority t := fun hh => hp hh.symm
      rw [breakdown_step, dict_get_dict_set, if_neg hp2, if_neg hp]
      simp only [Nat.zero_add]

theorem dict_get_init (s : String) :
    dict_get init_breakdown s =
      if s = "urgent" ∨ s = "high" ∨ s = "medium" ∨ s = "low" then some 0 else none := by
  by_cases h1 : s = "urgent"
  · subst h1; simp [init_breakdown, dict_get]
  · by_cases h2 : s = "high"
    · subst h2; simp [init_breakdown, dict_get]
    · by_cases h3 : s = "medium"
      · subst h3; simp [init_breakdown, dict_get]
      · by_cases h4 : s = "low"
        · subst h4; simp [init_breakdown, dict_get]
        · simp [init_breakdown, dict_get, h1, h2, h3, h4,
            fun hh => h1 (hh : s = "urgent"), Ne.symm]

/-- C9 counterexample.  A task supplying the unrecognized priority string
`"Critical"` is tallied under the lower-cased key `"critical"`; the exact
supplied string `"Critical"` is absent from the histogram, refuting the
claim that the key equals the string as supplied. -/
theorem c9_mixed_case_priority_key_lowercased :
    dict_get (summarize_tasks
        [{ title := some "t", category := none, priority := some "Critical",
           estimated_minutes := none, duration_minutes := none }]).priority_breakdown
        "Critical" = none ∧
    dict_get (summarize_tasks
        [{ title := some "t", category := none, priority := some "Critical",
           estimated_minutes := none, duration_minutes := none }]).priority_breakdown
        "critical" = some 1 := by
  constructor <;> decide

/-- C9 (amended).  For a non-empty task list, `summarize_tasks` tallies each
task under the *lower-cased* supplied priority string (default `medium`):
an unrecognized priority gets its own histogram key — it is not coerced into
the four fixed buckets — but that key is the lower-casing of the supplied
string, which equals the supplied string only when the latter is already
lower-case.  The four fixed buckets are present even when their count is 0;
other keys appear exactly when their count is positive. -/
theorem c9_priority_histogram_keys (tasks : List CTask) (s : String) (h : tasks ≠ []) :
    dict_get (summarize_tasks tasks).priority_breakdown s =
      if s = "urgent" ∨ s = "high" ∨ s = "medium" ∨ s = "low" then
        some (count_priority tasks s)
      else if count_priority tasks s ≠ 0 then some (count_priority tasks s) else none := by
  obtain ⟨t, ts, rfl⟩ := List.exists_cons_of_ne_nil h
  show dict_get ((t :: ts).foldl breakdown_step init_breakdown) s = _
  rw [breakdown_fold, dict_get_init]
  by_cases hb : s = "urgent" ∨ s = "high" ∨ s = "medium" ∨ s = "low"
  · simp [hb]
  · simp [hb]

/-- Witness for the C9 theorem at a concrete input: a single task with
priority `"urgent"` yields histogram count 1 under key `"urgent"`. -/
theorem c9_priority_histogram_keys_witness :
    dict_get (summarize_tasks
        [{ title := some "t", category := none, priority := some "urgent",
           estimated_minutes := none, duration_minutes := none }]).priority_breakdown
        "urgent" = some 1 := by
  have h := c9_priority_histogram_keys
    [{ title := some "t", category := none, priority := some "urgent",
       estimated_minutes := none, duration_minutes := none }] "urgent" (by simp)
  rw [h]
  decide

theorem le_round_half_even (n : ℤ) (q : ℚ) (h : (n : ℚ) ≤ q) : n ≤ round_half_even q := by
  have hf : n ≤ ⌊q⌋ := Int.le_floor.mpr h
  unfold round_half_even
  dsimp only
  split_ifs <;> omega

theorem round_half_even_le (q : ℚ) (n : ℤ) (h : q ≤ (n : ℚ)) : round_half_even q ≤ n := by
  have hf : ⌊q⌋ ≤ n := by
    have := Int.floor_le_floor h
    simpa using this
  unfold round_half_even
  dsimp only
  split_ifs with h1 h2 h3
  · exact hf
  · have hq : (⌊q⌋ : ℚ) + 1/2 < q := by linarith
    have hlt : (⌊q⌋ : ℚ) < n := by linarith
    have : ⌊q⌋ < n := by exact_mod_cast hlt
    omega
  · exact hf
  · have hq : (⌊q⌋ : ℚ) + 1/2 ≤ q := by linarith
    have hlt : (⌊q⌋ : ℚ) < n := by linarith
    have : ⌊q⌋ < n := by exact_mod_cast hlt
    omega

theorem py_round2_bounds (q : ℚ) (hlo : 3/10 ≤ q) (hhi : q ≤ 19/20) :
    3/10 ≤ py_round2 q ∧ py_round2 q ≤ 19/20 := by
  have h30 : (30 : ℤ) ≤ round_half_even (q * 100) :=
    le_round_half_even 30 _ (by push_cast; linarith)
  have h95 : round_half_even (q * 100) ≤ (95 : ℤ) :=
    round_half_even_le _ 95 (by push_cast; linarith)
  have h30q : (30 : ℚ) ≤ (round_half_even (q * 100) : ℚ) := by exact_mod_cast h30
  have h95q : (round_half_even (q * 100) : ℚ) ≤ 95 := by exact_mod_cast h95
  unfold py_round2
  constructor <;> [linarith; linarith]

theorem calculate_confidence_clamped (task : PTask) (hd : Option (List HistTask))
    (up : Option UserProfile) :
    3/10 ≤ calculate_confidence task hd up ∧ calculate_confidence task hd up ≤ 19/20 := by
  unfold calculate_confidence
  constructor
  · exact le_max_left _ _
  · exact max_le (by norm_num) (min_le_left _ _)

/-- C6 (confirmed).  For every task, historical list and user profile, the
`confidence_score` returned by `predict_task_duration` lies in `[0.3, 0.95]`:
`_calculate_confidence` ends in `max(0.3, min(0.95, ...))`, and rounding the
clamped value to two decimals cannot leave the interval because both
endpoints are exact two-decimal values. -/
theorem c6_confidence_score_in_range (task : PTask) (historical_data : Option (List HistTask))
    (user_profile : Option UserProfile) :
    3/10 ≤ (predict_task_duration task historical_data user_profile).confidence_score ∧
    (predict_task_duration task historical_data user_profile).confidence_score ≤ 19/20 := by
  have hc := calculate_confidence_clamped task historical_data user_profile
  show 3/10 ≤ py_round2 (calculate_confidence task historical_data user_profile) ∧
    py_round2 (calculate_confidence task historical_data user_profile) ≤ 19/20
  exact py_round2_bounds _ hc.1 hc.2

/-- C8 (confirmed).  With `historical_data=None`, `_adjust_with_history`
returns its input unchanged, so the prediction of `predict_task_duration`
coincides field for field with the pipeline that applies the base estimate
followed by the profile adjustment only. -/
theorem c8_no_history_equals_profile_only_pipeline (task : PTask)
    (user_profile : Option UserProfile) :
    predict_task_duration task none user_profile
      = predict_with_profile_only task user_profile := rfl

theorem py_insert_perm (le : α → α → Bool) (x : α) (l : List α) :
    (py_insert le x l).Perm (x :: l) := by
  induction l with
  | nil => rfl
  | cons y ys ih =>
    unfold py_insert
    split_ifs
    · exact ((ih.cons y).trans (List.Perm.swap x y ys))
    · rfl

theorem py_sort_perm (le : α → α → Bool) (l : List α) : (py_sort le l).Perm l := by
  have key : ∀ (l : List α) (acc : List α),
      (l.foldl (fun acc x => py_insert le x acc) acc).Perm (acc ++ l) := by
    intro l
    induction l with
    | nil => intro acc; simp
    | cons x xs ih =>
      intro acc
      rw [List.foldl_cons]
      refine (ih (py_insert le x acc)).trans ?_
      have h1 : (py_insert le x acc ++ xs).Perm ((x :: acc) ++ xs) :=
        (py_insert_perm le x acc).append_right xs
      refine h1.trans ?_
      simp only [List.cons_append]
      exact (List.perm_middle).symm
  simpa using key l []

theorem py_sort_mem (le : α → α → Bool) (l : List α) (a : α) :
    a ∈ py_sort le l ↔ a ∈ l :=
  (py_sort_perm le l).mem_iff

theorem py_sort_length (le : α → α → Bool) (l : List α) :
    (py_sort le l).length = l.length :=
  (py_sort_perm le l).length_eq

theorem py_insert_sorted (x : Suggestion) (l : List Suggestion)
    (hl : l.Pairwise fun a b => b.priority_score ≤ a.priority_score) :
    (py_insert sugg_order x l).Pairwise fun a b => b.priority_score ≤ a.priority_score := by
  induction l with
  | nil => simp [py_insert]
  | cons y ys ih =>
    rw [List.pairwise_cons] at hl
    obtain ⟨hy, hys⟩ := hl
    unfold py_insert
    split_ifs with hle
    · have hxy : x.priority_score ≤ y.priority_score := by
        simpa [sugg_order] using hle
      rw [List.pairwise_cons]
      refine ⟨?_, ih hys⟩
      intro z hz
      rcases List.mem_cons.mp (((py_insert_perm sugg_order x ys).mem_iff).mp hz) with rfl | hzys
      · exact hxy
      · exact hy z hzys
    · have hyx : y.priority_score ≤ x.priority_score := by
        have hnot : ¬ x.priority_score ≤ y.priority_score := by
          simpa [sugg_order] using hle
        linarith
      rw [List.pairwise_cons]
      constructor
      · intro z hz
        rcases List.mem_cons.mp hz with rfl | hzys
        · exact hyx
        · exact le_trans (hy z hzys) hyx
      · exact List.Pairwise.cons hy hys

theorem py_sort_sorted (l : List Suggestion) :
    (py_sort sugg_order l).Pairwise fun a b => b.priority_score ≤ a.priority_score := by
  have key : ∀ (l acc : List Suggestion),
      (acc.Pairwise fun a b => b.priority_score ≤ a.priority_score) →
      ((l.foldl (fun acc x => py_insert sugg_order x acc) acc).Pairwise
        fun a b => b.priority_score ≤ a.priority_score) := by
    intro l
    induction l with
    | nil => intro acc h; simpa using h
    | cons x xs ih =>
      intro acc h
      rw [List.foldl_cons]
      exact ih _ (py_insert_sorted x acc h)
  exact key l [] (by simp)

theorem schedule_suggestions_shape (ss : List FocusSession) (pd : Unit) :
    schedule_suggestions ss pd = [] ∨
    schedule_suggestions ss pd
      = [{ suggestion_type := "schedule_optimization", priority_score := 17/20 }] := by
  unfold schedule_suggestions
  cases ss with
  | nil => exact Or.inl rfl
  | cons s rest =>
    dsimp only
    split_ifs
    · exact Or.inl rfl
    · exact Or.inl rfl
    · exact Or.inr rfl

theorem task_prioritization_suggestions_shape (ts : List STask) (now : ℤ) :
    task_prioritization_suggestions ts now = .ok [] ∨
    task_prioritization_suggestions ts now
      = .ok [{ suggestion_type := "task_prioritization", priority_score := 19/20 }] ∨
    ∃ e, task_prioritization_suggestions ts now = .error e := by
  unfold task_prioritization_suggestions
  dsimp only
  split_ifs with h1
  · exact Or.inl rfl
  · cases hfo : filter_overdue (ts.filter incomplete_high_priority_filter) now with
    | error e =>
      simp only [hfo]
      exact Or.inr (Or.inr ⟨e, rfl⟩)
    | ok ov =>
      simp only [hfo]
      split_ifs
      · exact Or.inl rfl
      · exact Or.inr (Or.inl rfl)

theorem break_timing_suggestions_shape (ss : List FocusSession) (aps : List ActivityPattern) :
    break_timing_suggestions ss aps = [] ∨
    break_timing_suggestions ss aps
      = [{ suggestion_type := "break_timing", priority_score := 3/4 }] := by
  unfold break_timing_suggestions
  cases ss with
  | nil => exact Or.inl rfl
  | cons s rest =>
    dsimp only
    split_ifs
    · exact Or.inl rfl
    · exact Or.inr rfl
    · exact Or.inl rfl

theorem duration_suggestions_shape (ss : List FocusSession) (ts : List STask) :
    duration_suggestions ss ts = [] ∨
    duration_suggestions ss ts
      = [{ suggestion_type := "focus_duration", priority_score := 7/10 }] := by
  unfold duration_suggestions
  cases ss with
  | nil => exact Or.inl rfl
  | cons s rest =>
    dsimp only
    split_ifs
    · exact Or.inl rfl
    · exact Or.inl rfl
    · exact Or.inr rfl

theorem pattern_suggestions_shape (aps : List ActivityPattern) (ss : List FocusSession) :
    pattern_suggestions aps ss = [] ∨
    pattern_suggestions aps ss
      = [{ suggestion_type := "distraction_management", priority_score := 8/10 }] := by
  unfold pattern_suggestions
  cases aps with
  | nil => exact Or.inl rfl
  | cons a rest =>
    dsimp only
    split_ifs
    · exact Or.inl rfl
    · exact Or.inl rfl
    · exact Or.inr rfl

theorem generate_suggestions_ok_form (uid : String) (pd : Unit) (ss : List FocusSession)
    (ts : List STask) (aps : List ActivityPattern) (now : ℤ) (l : List Suggestion)
    (h : generate_suggestions uid pd ss ts aps now = .ok l) :
    ∃ t2 : List Suggestion,
      task_prioritization_suggestions ts now = .ok t2 ∧
      l = (py_sort sugg_order
        (schedule_suggestions ss pd ++ t2 ++ break_timing_suggestions ss aps
          ++ duration_suggestions ss ts ++ pattern_suggestions aps ss)).take 10 := by
  unfold generate_suggestions at h
  cases hfo : task_prioritization_suggestions ts now with
  | error e => rw [hfo] at h; exact absurd h (by simp)
  | ok t2 =>
    rw [hfo] at h
    simp only [Except.ok.injEq] at h
    exact ⟨t2, rfl, h.symm⟩

theorem concat_scores_distinct (s1 t2 s3 s4 s5 : List Suggestion)
    (h1 : s1 = [] ∨ s1 = [{ suggestion_type := "schedule_optimization", priority_score := 17/20 }])
    (h2 : t2 = [] ∨ t2 = [{ suggestion_type := "task_prioritization", priority_score := 19/20 }])
    (h3 : s3 = [] ∨ s3 = [{ suggestion_type := "break_timing", priority_score := 3/4 }])
    (h4 : s4 = [] ∨ s4 = [{ suggestion_type := "focus_duration", priority_score := 7/10 }])
    (h5 : s5 = [] ∨ s5 = [{ suggestion_type := "distraction_management", priority_score := 8/10 }]) :
    (s1 ++ t2 ++ s3 ++ s4 ++ s5).Pairwise
      fun a b => a.priority_score ≠ b.priority_score := by
  rcases h1 with rfl | rfl <;> rcases h2 with rfl | rfl <;> rcases h3 with rfl | rfl <;>
    rcases h4 with rfl | rfl <;> rcases h5 with rfl | rfl <;>
    simp [List.pairwise_cons] <;> norm_num

/-- C7 (confirmed).  Whenever `generate_suggestions` returns a list, that
list has length at most 10 and is sorted in descending order of
`priority_score`; moreover all its priority scores are pairwise distinct
(each sub-generator emits a distinct constant score), so the stable-tie
clause of the claim holds vacuously — and the modelled sort is stable by
construction, mirroring Python's stable `list.sort`. -/
theorem c7_suggestions_sorted_and_capped (uid : String) (pd : Unit) (ss : List FocusSession)
    (ts : List STask) (aps : List ActivityPattern) (now : ℤ) (l : List Suggestion)
    (h : generate_suggestions uid pd ss ts aps now = .ok l) :
    l.length ≤ 10 ∧
    (l.Pairwise fun a b => b.priority_score ≤ a.priority_score) ∧
    (l.Pairwise fun a b => a.priority_score ≠ b.priority_score) := by
  obtain ⟨t2, hok, rfl⟩ := generate_suggestions_ok_form uid pd ss ts aps now l h
  have ht2 : t2 = [] ∨ t2 = [{ suggestion_type := "task_prioritization", priority_score := 19/20 }] := by
    rcases task_prioritization_suggestions_shape ts now with hs | hs | ⟨e, hs⟩
    · exact Or.inl (by simpa using hok.symm.trans hs)
    · exact Or.inr (by simpa using hok.symm.trans hs)
    · rw [hok] at hs; exact absurd hs (by simp)
  refine ⟨?_, ?_, ?_⟩
  · exact List.length_take_le 10 _
  · exact (py_sort_sorted _).sublist (List.take_sublist _ _)
  · have hdist := concat_scores_distinct (schedule_suggestions ss pd) t2
      (break_timing_suggestions ss aps) (duration_suggestions ss ts) (pattern_suggestions aps ss)
      (schedule_suggestions_shape ss pd) ht2 (break_timing_suggestions_shape ss aps)
      (duration_suggestions_shape ss ts) (pattern_suggestions_shape aps ss)
    have hsorted : ((py_sort sugg_order
        (schedule_suggestions ss pd ++ t2 ++ break_timing_suggestions ss aps
          ++ duration_suggestions ss ts ++ pattern_suggestions aps ss))).Pairwise
        (fun a b => a.priority_score ≠ b.priority_score) := by
      refine ((py_sort_perm sugg_order _).pairwise_iff ?_).mpr hdist
      intro a b hab
      exact fun hh => hab hh.symm
    exact hsorted.sublist (List.take_sublist _ _)

/-- C10 (confirmed).  Each of the five sub-generators emits at most one
suggestion, any returned final list has length at most 5, and every emitted
priority score is one of the constants 0.95, 0.85, 0.80, 0.75, 0.70. -/
theorem c10_five_generators_bounded (uid : String) (pd : Unit) (ss : List FocusSession)
    (ts : List STask) (aps : List ActivityPattern) (now : ℤ) :
    (schedule_suggestions ss pd).length ≤ 1 ∧
    (∀ l2, task_prioritization_suggestions ts now = .ok l2 → l2.length ≤ 1) ∧
    (break_timing_suggestions ss aps).length ≤ 1 ∧
    (duration_suggestions ss ts).length ≤ 1 ∧
    (pattern_suggestions aps ss).length ≤ 1 ∧
    ∀ l, generate_suggestions uid pd ss ts aps now = .ok l →
      l.length ≤ 5 ∧
      ∀ s ∈ l, s.priority_score ∈ ([19/20, 17/20, 8/10, 3/4, 7/10] : List ℚ) := by
  refine ⟨?_, ?_, ?_, ?_, ?_, ?_⟩
  · rcases schedule_suggestions_shape ss pd with hs | hs <;> simp [hs]
  · intro l2 h2
    rcases task_prioritization_suggestions_shape ts now with hs | hs | ⟨e, hs⟩
    · have hl2 : l2 = [] := by simpa using h2.symm.trans hs
      simp [hl2]
    · have hl2 : l2 = [{ suggestion_type := "task_prioritization", priority_score := 19/20 }] := by
        simpa using h2.symm.trans hs
      simp [hl2]
    · rw [h2] at hs; exact absurd hs (by simp)
  · rcases break_timing_suggestions_shape ss aps with hs | hs <;> simp [hs]
  · rcases duration_suggestions_shape ss ts with hs | hs <;> simp [hs]
  · rcases pattern_suggestions_shape aps ss with hs | hs <;> simp [hs]
  · intro l h
    obtain ⟨t2, hok, rfl⟩ := generate_suggestions_ok_form uid pd ss ts aps now l h
    have ht2 : t2 = [] ∨ t2 = [{ suggestion_type := "task_prioritization", priority_score := 19/20 }] := by
      rcases task_prioritization_suggestions_shape ts now with hs | hs | ⟨e, hs⟩
      · exact Or.inl (by simpa using hok.symm.trans hs)
      · exact Or.inr (by simpa using hok.symm.trans hs)
      · rw [hok] at hs; exact absurd hs (by simp)
    constructor
    · have hlen : (schedule_suggestions ss pd ++ t2 ++ break_timing_suggestions ss aps
          ++ duration_suggestions ss ts ++ pattern_suggestions aps ss).length ≤ 5 := by
        rcases schedule_suggestions_shape ss pd with hs1 | hs1 <;>
          rcases ht2 with hs2 | hs2 <;>
          rcases break_timing_suggestions_shape ss aps with hs3 | hs3 <;>
          rcases duration_suggestions_shape ss ts with hs4 | hs4 <;>
          rcases pattern_suggestions_shape aps ss with hs5 | hs5 <;>
          simp [hs1, hs2, hs3, hs4, hs5]
      calc (List.take 10 (py_sort sugg_order _)).length
          ≤ (py_sort sugg_order _).length := by
            rw [List.length_take]
            exact min_le_right _ _
        _ ≤ 5 := by rw [py_sort_length]; exact hlen
    · intro s hsmem
      have hmem : s ∈ py_sort sugg_order
          (schedule_suggestions ss pd ++ t2 ++ break_timing_suggestions ss aps
            ++ duration_suggestions ss ts ++ pattern_suggestions aps ss) :=
        List.mem_of_mem_take hsmem
      rw [py_sort_mem] at hmem
      simp only [List.mem_append] at hmem
      rcases hmem with ((((hm | hm) | hm) | hm) | hm)
      · rcases schedule_suggestions_shape ss pd with hs | hs <;> rw [hs] at hm
        · simp at hm
        · simp at hm; subst hm; simp
      · rcases ht2 with hs | hs <;> rw [hs] at hm
        · simp at hm
        · simp at hm; subst hm; simp
      · rcases break_timing_suggestions_shape ss aps with hs | hs <;> rw [hs] at hm
        · simp at hm
        · simp at hm; subst hm; simp
      · rcases duration_suggestions_shape ss ts with hs | hs <;> rw [hs] at hm
        · simp at hm
        · simp at hm; subst hm; simp
      · rcases pattern_suggestions_shape aps ss with hs | hs <;> rw [hs] at hm
        · simp at hm
        · simp at hm; subst hm; simp

/-- Witness for the C7 theorem: on entirely empty inputs the call returns
`ok []`, whose properties follow from the theorem applied there. -/
theorem c7_suggestions_sorted_and_capped_witness :
    (generate_suggestions "" () [] [] [] 0 = Except.ok ([] : List Suggestion)) ∧
    (([] : List Suggestion).length ≤ 10 ∧
     (([] : List Suggestion).Pairwise fun a b => b.priority_score ≤ a.priority_score) ∧
     (([] : List Suggestion).Pairwise fun a b => a.priority_score ≠ b.priority_score)) :=
  ⟨rfl, c7_suggestions_sorted_and_capped "" () [] [] [] 0 [] rfl⟩

/-- Witness for the C10 theorem: both hypothetical branches are discharged
at entirely empty inputs, where every generator returns `ok []`. -/
theorem c10_five_generators_bounded_witness :
    (task_prioritization_suggestions [] 0 = Except.ok ([] : List Suggestion)) ∧
    (([] : List Suggestion).length ≤ 1) ∧
    (generate_suggestions "" () [] [] [] 0 = Except.ok ([] : List Suggestion)) ∧
    (([] : List Suggestion).length ≤ 5 ∧
     ∀ s ∈ ([] : List Suggestion),
       s.priority_score ∈ ([19/20, 17/20, 8/10, 3/4, 7/10] : List ℚ)) :=
  ⟨rfl, (c10_five_generators_bounded "" () [] [] [] 0).2.1 [] rfl, rfl,
    (c10_five_generators_bounded "" () [] [] [] 0).2.2.2.2.2 [] rfl⟩
